import Mathlib

/-!
Shallow embedding of the zenject dependency-injection core:
the provider registration engine (`registerProvider`), the module graph
resolver (`Module` decorator, `processDynamicModule`, `loadModule`,
`registerExportedProviders`), the plugin manager (`PluginManager.load`)
and the lifecycle coordinator (`AppLifecycle.shutdown`).

The underlying token container (tsyringe) is an external collaborator in
the source; it is modelled here by its interface: a registration store
(latest registration wins on resolve, as tsyringe's registry returns the
most recent registration) with a singleton instance cache.  Instances are
identified by a fresh numeric id allocated at construction, so singleton
identity is expressible.  The single JS thread is modelled by running the
async operations in their (deterministic) award order; `Promise.all` over
the import list and over teardown hooks is linearized in list order, which
is sound for the stated claims because none of them depends on the
interleaving between sibling imports or sibling hooks.

JS exceptions are modelled by a result type `RRes` whose error case keeps
the state at the throw point (global state mutated before a throw stays
mutated, exactly as in the source).
-/

set_option maxRecDepth 4000

/-- A thrown JS error: its class name (`Error` for `new Error(...)`) and
its message. -/
structure Err where
  name : String
  msg : String
deriving DecidableEq, Repr

/-- Result of a stateful fallible operation: either a value together with
the updated state, or a thrown error together with the state at the point
of the throw. -/
inductive RRes (σ : Type) (α : Type) where
  | ok (a : α) (s : σ)
  | err (e : Err) (s : σ)
deriving Repr

/-- Injection token: a string (also covering symbols / InjectionTokens)
or a class used as its own token. -/
inductive Token where
  | str (s : String)
  | cls (c : Nat)
deriving DecidableEq, Repr

/-- Runtime values: constructed class instances (with an identity id and
their class), or plain literal values (carrying whether they expose an
`onInit` method, for duck-typed hook detection). -/
inductive Value where
  | inst (id : Nat) (cls : Nat)
  | lit (n : Nat) (hasOnInit : Bool)
deriving DecidableEq, Repr

/-- A container registration, mirroring the shapes the source hands to
tsyringe: `{useValue}`, `registerSingleton(class)`, `register(tok,
{useClass})` (transient) and `{useToken}` aliases. -/
inductive Reg where
  | value (v : Value)
  | singletonClass (c : Nat)
  | transientClass (c : Nat)
  | aliasTok (t : Token)
deriving DecidableEq, Repr

/-- First-match association list lookup; registrations are prepended, so
lookup returns the most recent one, matching tsyringe's behaviour of
resolving the latest registration for a token. -/
def lookupAssoc {κ α : Type} [DecidableEq κ] : List (κ × α) → κ → Option α
  | [], _ => none
  | (k, a) :: rest, k2 => if k = k2 then some a else lookupAssoc rest k2

/-- The token container: registrations (most recent first) plus the
singleton instance cache. -/
structure Container where
  regs : List (Token × Reg)
  cache : List (Token × Value)
deriving Repr

/-- Observable effects recorded while the engine runs. -/
inductive Event where
  | ctorInvoked (cls : Nat) (instId : Nat)
  | onInitRun (v : Value)
  | factoryInvoked (fid : Nat) (args : List Value)
  | registeredTok (t : Token)
deriving DecidableEq, Repr

/-- The world fixes the duck-typed behaviour of classes and factory
functions: whether instances of a class expose `onInit`, the value a
factory computes from its positional arguments, and whether the factory
returns a Promise. -/
structure World where
  classOnInit : Nat → Bool
  factFn : Nat → List Value → Value
  factAsync : Nat → Bool

/-- Whether a value exposes an `onInit` method (`isOnInit` type guard). -/
def valueOnInit (w : World) : Value → Bool
  | .inst _ c => w.classOnInit c
  | .lit _ h => h

/-- A provider object literal: every recognized field is optional, so the
duck-typed dispatch of the source (`useClass !== undefined`, ...) and the
unrecognized-shape fallback are both expressible. -/
structure ProviderObj where
  provide : Token
  useClass : Option Nat
  singleton : Option Bool
  useValue : Option Value
  useFactory : Option Nat
  deps : Option (List Token)
  useExisting : Option Token
deriving DecidableEq, Repr

/-- A provider descriptor: a bare constructor (class) or an object
literal. -/
inductive Provider where
  | ctor (c : Nat)
  | obj (o : ProviderObj)
deriving DecidableEq, Repr

/-- The token a recognized provider registers under. -/
def providerToken : Provider → Token
  | .ctor c => .cls c
  | .obj o => o.provide

mutual
/-- One entry of a module's import list: a static class import (looked up
by class name, as the source does) or a dynamic module descriptor. -/
inductive ImportItem where
  | stat : String → ImportItem
  | dyn : DynSpec → ImportItem

/-- A dynamic module descriptor: module class id and name, providers,
imports and exports. -/
inductive DynSpec where
  | mk : Nat → String → List Provider → List ImportItem → List Provider → DynSpec
end

/-- Class id of a dynamic module descriptor. -/
def DynSpec.clsId : DynSpec → Nat
  | .mk c _ _ _ _ => c

/-- Module name of a dynamic module descriptor. -/
def DynSpec.mname : DynSpec → String
  | .mk _ n _ _ _ => n

/-- Providers of a dynamic module descriptor. -/
def DynSpec.providers : DynSpec → List Provider
  | .mk _ _ ps _ _ => ps

/-- Imports of a dynamic module descriptor. -/
def DynSpec.imports : DynSpec → List ImportItem
  | .mk _ _ _ is2 _ => is2

/-- Exports of a dynamic module descriptor. -/
def DynSpec.exps : DynSpec → List Provider
  | .mk _ _ _ _ ex => ex

/-- What the `Module` decorator / `processDynamicModule` stores in the
`lazyModules` registry for one module name: the data its deferred
initializer closure captured. -/
structure InitDecl where
  clsId : Nat
  providers : List Provider
  imports : List ImportItem

/-- The process-wide state: the three module registries of `module.ts`,
the container, the fresh-instance-id source and the event trace. -/
structure Sys where
  lazyModules : List (String × InitDecl)
  loadedModules : List String
  moduleExports : List (String × List Provider)
  container : Container
  nextId : Nat
  trace : List Event

/-- Results over the process-wide state. -/
abbrev Res (α : Type) := RRes Sys α

/-- `AppContainer.isRegistered`. -/
def isRegisteredS (s : Sys) (t : Token) : Bool :=
  (lookupAssoc s.container.regs t).isSome

/-- Register into the container (prepend = most recent), recording the
registration event. -/
def registerC (s : Sys) (t : Token) (r : Reg) : Sys :=
  { s with
    container := ⟨(t, r) :: s.container.regs, s.container.cache⟩,
    trace := s.trace ++ [.registeredTok t] }

/-- `AppContainer.resolve` with explicit fuel for alias chains.
Unregistered tokens throw; a `value` registration returns the stored
value; a singleton class constructs once and caches by token; a transient
class constructs a fresh instance each time; an alias delegates. -/
def resolveTok (f : Nat) (t : Token) (s : Sys) : Res Value :=
  match f with
  | 0 => .err ⟨"Error", "alias chain exhausted"⟩ s
  | f2 + 1 =>
    match lookupAssoc s.container.regs t with
    | none => .err ⟨"Error", "Attempted to resolve unregistered dependency token"⟩ s
    | some (.value v) => .ok v s
    | some (.singletonClass c) =>
      match lookupAssoc s.container.cache t with
      | some v => .ok v s
      | none =>
        let v := Value.inst s.nextId c
        .ok v { s with
          nextId := s.nextId + 1,
          container := ⟨s.container.regs, (t, v) :: s.container.cache⟩,
          trace := s.trace ++ [.ctorInvoked c s.nextId] }
    | some (.transientClass c) =>
      let v := Value.inst s.nextId c
      .ok v { s with
        nextId := s.nextId + 1,
        trace := s.trace ++ [.ctorInvoked c s.nextId] }
    | some (.aliasTok t2) => resolveTok f2 t2 s

/-- `AppContainer.resolve` with enough fuel for any acyclic alias chain
(a chain longer than the registration list must repeat a token). -/
def resolveTok2 (t : Token) (s : Sys) : Res Value :=
  resolveTok (s.container.regs.length + 1) t s

/-- `callOnInit`: run the post-construct hook if the value exposes one,
recording the invocation. -/
def callOnInitM (w : World) (v : Value) (s : Sys) : Sys :=
  if valueOnInit w v then { s with trace := s.trace ++ [.onInitRun v] } else s

/-- Serialization of a value as `JSON.stringify` would render it inside a
provider object (instances as plain objects, numbers as numerals). -/
def serializeValue : Value → String
  | .inst _ _ => "\x7b\x7d"
  | .lit n _ => toString n

/-- Serialization of a token as `JSON.stringify` renders it: strings are
quoted, class references (functions) are dropped by JSON.stringify and
rendered here as null for totality. -/
def serializeToken : Token → String
  | .str s => "\"" ++ s ++ "\""
  | .cls _ => "null"

/-- Serialization of a provider descriptor, mirroring
`JSON.stringify(provider)` in the unsupported-provider error message. -/
def serializeProvider : Provider → String
  | .ctor _ => "undefined"
  | .obj o =>
    "\x7b\"provide\":" ++ serializeToken o.provide
      ++ (match o.useValue with
          | some v => ",\"useValue\":" ++ serializeValue v
          | none => "")
      ++ "\x7d"

/-- Resolve a factory provider's `deps` from the container, in order. -/
def resolveDepsList : List Token → Sys → Res (List Value)
  | [], s => .ok [] s
  | t :: rest, s =>
    match resolveTok2 t s with
    | .err e s2 => .err e s2
    | .ok v s2 =>
      match resolveDepsList rest s2 with
      | .err e s3 => .err e s3
      | .ok vs s3 => .ok (v :: vs) s3

/-- `registerProvider` of `utils/provider-registration.ts`: duck-typed
dispatch in source order (constructor, `useClass`, `useValue`,
`useFactory`, `useExisting`, unsupported), each recognized branch
skipping silently when the token is already registered. -/
def registerProvider (w : World) (p : Provider) (s : Sys) : Res Unit :=
  match p with
  | .ctor c =>
    if isRegisteredS s (.cls c) then .ok () s
    else
      let s1 := registerC s (.cls c) (.singletonClass c)
      match resolveTok2 (.cls c) s1 with
      | .err e s2 => .err e s2
      | .ok v s2 => .ok () (callOnInitM w v s2)
  | .obj o =>
    match o.useClass with
    | some c =>
      if isRegisteredS s o.provide then .ok () s
      else
        let s1 :=
          if o.singleton = some false then
            registerC s o.provide (.transientClass c)
          else
            match o.provide with
            | .cls pc => registerC s o.provide (.singletonClass pc)
            | _ => registerC s o.provide (.singletonClass c)
        match resolveTok2 o.provide s1 with
        | .err e s2 => .err e s2
        | .ok v s2 => .ok () (callOnInitM w v s2)
    | none =>
    match o.useValue with
    | some v =>
      if isRegisteredS s o.provide then .ok () s
      else .ok () (registerC s o.provide (.value v))
    | none =>
    match o.useFactory with
    | some fid =>
      if isRegisteredS s o.provide then .ok () s
      else
        let depRes : Res (List Value) :=
          match o.deps with
          | some ds => if ds.length > 0 then resolveDepsList ds s else .ok [] s
          | none => .ok [] s
        match depRes with
        | .err e s2 => .err e s2
        | .ok args s2 =>
          let s3 := { s2 with trace := s2.trace ++ [.factoryInvoked fid args] }
          let r := w.factFn fid args
          let v := if w.factAsync fid then r else r
          let s4 := registerC s3 o.provide (.value v)
          .ok () (callOnInitM w v s4)
    | none =>
    match o.useExisting with
    | some t =>
      if isRegisteredS s o.provide then .ok () s
      else .ok () (registerC s o.provide (.aliasTok t))
    | none =>
      .err ⟨"Error", "Unsupported provider type: " ++ serializeProvider p⟩ s

/-- Register a list of providers in order, as the module initializer's
for-loop over `providers` does, propagating the first failure. -/
def registerProvidersList (w : World) : List Provider → Sys → Res Unit
  | [], s => .ok () s
  | p :: rest, s =>
    match registerProvider w p s with
    | .err e s2 => .err e s2
    | .ok _ s2 => registerProvidersList w rest s2

/-- `registerExportedProviders`: copy an imported module's recorded
exports into the container.  A bare class export delegates to
`registerProvider` only when its token is unregistered; an object export
with an already-registered token is re-registered as the resolved
instance (`useValue`), otherwise delegated to `registerProvider`. -/
def registerExportedProviders (w : World) (importedModuleName : String) (s : Sys) : Res Unit :=
  match lookupAssoc s.moduleExports importedModuleName with
  | none => .ok () s
  | some exps =>
    if exps.length = 0 then .ok () s
    else goExports w exps s
where
  /-- Iterate the exported providers in insertion order. -/
  goExports (w : World) : List Provider → Sys → Res Unit
  | [], s => .ok () s
  | p :: rest, s =>
    match p with
    | .ctor c =>
      if isRegisteredS s (.cls c) then goExports w rest s
      else
        match registerProvider w p s with
        | .err e s2 => .err e s2
        | .ok _ s2 => goExports w rest s2
    | .obj o =>
      if isRegisteredS s o.provide then
        match resolveTok2 o.provide s with
        | .err e s2 => .err e s2
        | .ok v s2 => goExports w rest (registerC s2 o.provide (.value v))
      else
        match registerProvider w p s with
        | .err e s2 => .err e s2
        | .ok _ s2 => goExports w rest s2

/-- Add a name to the loaded-modules set (`Set.add` semantics). -/
def addLoaded (n : String) (l : List String) : List String :=
  if l.contains n then l else n :: l

/-- `processDynamicModule`: record the dynamic module's exports and store
a fresh initializer declaration under its module name. -/
def processDynamicModule (d : DynSpec) (s : Sys) : Sys :=
  { s with
    moduleExports := (d.mname, d.exps) :: s.moduleExports,
    lazyModules := (d.mname, ⟨d.clsId, d.providers, d.imports⟩) :: s.lazyModules }

/-- Walk an import list: static imports look their initializer up by
class name and run it if present, then propagate that import's exports;
dynamic imports are first materialized via `processDynamicModule`.  The
recursive initializer run is passed in as `rec2`, so this is structurally
recursive on the list.  `Promise.all` over the imports is linearized in
declaration order. -/
def loadImportsWith (w : World) (rec2 : String → Sys → Res Unit) :
    List ImportItem → Sys → Res Unit
  | [], s => .ok () s
  | .stat n :: rest, s =>
    match lookupAssoc s.lazyModules n with
    | none => loadImportsWith w rec2 rest s
    | some _ =>
      match rec2 n s with
      | .err e s2 => .err e s2
      | .ok _ s2 =>
        match registerExportedProviders w n s2 with
        | .err e s3 => .err e s3
        | .ok _ s3 => loadImportsWith w rec2 rest s3
  | .dyn d :: rest, s =>
    let s0 := processDynamicModule d s
    match lookupAssoc s0.lazyModules d.mname with
    | none => loadImportsWith w rec2 rest s0
    | some _ =>
      match rec2 d.mname s0 with
      | .err e s2 => .err e s2
      | .ok _ s2 =>
        match registerExportedProviders w d.mname s2 with
        | .err e s3 => .err e s3
        | .ok _ s3 => loadImportsWith w rec2 rest s3

/-- Run the stored initializer of a module name, with fuel bounding
recursion through imports (true import cycles are an open hazard in the
source; the fuel only makes the model total).  Mirrors the initializer
closure: return at once if already loaded, load imports (propagating each
import's exports after its load settles), register own providers,
register the module class as a singleton if needed, resolve the module
instance, run its `onInit` hook, and finally mark the name loaded. -/
def runModuleInit (w : World) : Nat → String → Sys → Res Unit
  | 0, _, s => .err ⟨"Error", "module import recursion exhausted"⟩ s
  | f + 1, name, s =>
    match lookupAssoc s.lazyModules name with
    | none => .ok () s
    | some d =>
      if s.loadedModules.contains name then .ok () s
      else
        match loadImportsWith w (runModuleInit w f) d.imports s with
        | .err e s2 => .err e s2
        | .ok _ s1 =>
          match registerProvidersList w d.providers s1 with
          | .err e s2 => .err e s2
          | .ok _ s2 =>
            let s3 :=
              if isRegisteredS s2 (.cls d.clsId) then s2
              else registerC s2 (.cls d.clsId) (.singletonClass d.clsId)
            match resolveTok2 (.cls d.clsId) s3 with
            | .err e s4 => .err e s4
            | .ok v s4 =>
              let s5 := callOnInitM w v s4
              .ok () { s5 with loadedModules := addLoaded name s5.loadedModules }

/-- A module reference accepted by `loadModule`: a class (with its
runtime `name`) or a dynamic module descriptor. -/
inductive ModuleRef where
  | cls (id : Nat) (name : String)
  | dyn (d : DynSpec)

/-- `loadModule`: look the initializer up by module name (materializing a
dynamic module first) and run it when present; a name with no stored
initializer resolves as a silent no-op. -/
def loadModule (w : World) (f : Nat) (m : ModuleRef) (s : Sys) : Res Unit :=
  match m with
  | .cls _ n =>
    match lookupAssoc s.lazyModules n with
    | none => .ok () s
    | some _ => runModuleInit w f n s
  | .dyn d =>
    let s0 := processDynamicModule d s
    match lookupAssoc s0.lazyModules d.mname with
    | none => .ok () s0
    | some _ => runModuleInit w f d.mname s0

/-- The `Module` decorator applied to a class: stores the exports under
the class name and the deferred initializer declaration in
`lazyModules`. -/
def moduleDecorate (providers : List Provider) (imports : List ImportItem)
    (exps : List Provider) (clsId : Nat) (name : String) (s : Sys) : Sys :=
  { s with
    moduleExports := (name, exps) :: s.moduleExports,
    lazyModules := (name, ⟨clsId, providers, imports⟩) :: s.lazyModules }

/-- `getLoadedModules`. -/
def getLoadedModules (s : Sys) : List String :=
  s.loadedModules

/-- The empty process state. -/
def emptySys : Sys :=
  ⟨[], [], [], ⟨[], []⟩, 0, []⟩

/-- The object a plugin loader resolves to: named exports in insertion
order, each either a defined module reference or `undefined`. -/
abbrev ModuleImport := List (String × Option ModuleRef)

/-- Plugin-manager state: the plugin registry (each loader modelled by
the import object it resolves to), the loaded-plugin set, and the
module-system state underneath. -/
structure PSys where
  registry : List (String × ModuleImport)
  loaded : List String
  sys : Sys

/-- Pick the module to load from a loader's import object: the `default`
export when defined, otherwise the first defined value in insertion order
(`Object.values(...).find(v => v !== undefined)`). -/
def moduleToLoad (imp : ModuleImport) : Option ModuleRef :=
  match lookupAssoc imp "default" with
  | some (some m) => some m
  | _ => (imp.map Prod.snd).findSome? id

/-- `PluginManager.load`: no-op when already loaded; throw when the name
is not registered; otherwise run the loader, pass its module to
`loadModule`, and mark the plugin loaded only after the load succeeds. -/
def pluginLoad (w : World) (f : Nat) (name : String) (ps : PSys) : RRes PSys Unit :=
  if ps.loaded.contains name then .ok () ps
  else
    match lookupAssoc ps.registry name with
    | none => .err ⟨"Error", "Plugin \x27" ++ name ++ "\x27 is not registered"⟩ ps
    | some imp =>
      match moduleToLoad imp with
      | none => .err ⟨"Error", "Plugin \x27" ++ name ++ "\x27 did not export any modules"⟩ ps
      | some m =>
        match loadModule w f m ps.sys with
        | .err e s2 => .err e { ps with sys := s2 }
        | .ok _ s2 => .ok () { ps with sys := s2, loaded := addLoaded name ps.loaded }

/-- `PluginManager.isLoaded`. -/
def pluginIsLoaded (name : String) (ps : PSys) : Bool :=
  ps.loaded.contains name

/-- Lifecycle events of `AppLifecycle` (`LifecycleEvent` enum). -/
inductive LEvent where
  | startup
  | beforeShutdown
  | shutdown
  | afterShutdown
deriving DecidableEq, Repr

/-- Behaviour of a listener or teardown hook when invoked: return
normally, throw synchronously, or return a rejecting Promise. -/
inductive LBeh where
  | ok
  | throwSync
  | rejectAsync
deriving DecidableEq, Repr

/-- A registered lifecycle-event listener, identified by `lid`. -/
structure LListener where
  lid : Nat
  beh : LBeh
deriving DecidableEq, Repr

/-- An instance as the shutdown path sees it: identity, whether it
exposes `onDestroy`, and what that hook does when invoked. -/
structure DInst where
  iid : Nat
  hasOnDestroy : Bool
  beh : LBeh
deriving DecidableEq, Repr

/-- One container registration as enumerated during shutdown: its token,
whether it has been resolved, whether re-resolving it throws (the
shutdown-path resolution failure), and the instance behind it. -/
structure CEntry where
  tokenId : Nat
  resolved : Bool
  resolveThrows : Bool
  inst : DInst
deriving DecidableEq, Repr

/-- `AppLifecycle` state: the shutdown guard, the listener map, the
container registrations and the explicitly managed instances. -/
structure LState where
  isShuttingDown : Bool
  listeners : List (LEvent × List LListener)
  entries : List CEntry
  managed : List DInst
deriving DecidableEq, Repr

/-- Observable events of a shutdown run. -/
inductive LTrace where
  | emitted (e : LEvent)
  | listenerCalled (lid : Nat)
  | loggedListenerError (lid : Nat)
  | loggedResolveError (tokenId : Nat)
  | destroyCalled (iid : Nat)
deriving DecidableEq, Repr

/-- Outcome of the returned Promise of `shutdown`. -/
inductive ShOutcome where
  | resolved
  | rejected
deriving DecidableEq, Repr

/-- Listeners registered for an event (empty when the event has no
listener set, in which case `emitEvent` returns without work). -/
def listenersOf (st : LState) (e : LEvent) : List LListener :=
  match lookupAssoc st.listeners e with
  | some ls => ls
  | none => []

/-- Invoke every listener in order: a synchronous throw is caught and
logged on the spot; a returned Promise is collected, and the second
component reports whether `Promise.all` over the collected Promises
rejects (which the source does not catch). -/
def runListeners : List LListener → List LTrace × Bool
  | [] => ([], false)
  | l :: rest =>
    let head : List LTrace :=
      match l.beh with
      | .ok => [.listenerCalled l.lid]
      | .throwSync => [.listenerCalled l.lid, .loggedListenerError l.lid]
      | .rejectAsync => [.listenerCalled l.lid]
    let r := runListeners rest
    (head ++ r.1, (l.beh == .rejectAsync) || r.2)

/-- `AppLifecycle.emitEvent`: the emitted marker records that the
coordinator reached this phase; all listeners are invoked before the
collected Promises are awaited. -/
def emitEventFn (st : LState) (e : LEvent) : List LTrace × Bool :=
  let r := runListeners (listenersOf st e)
  (LTrace.emitted e :: r.1, r.2)

/-- Enumerate container registrations: only already-resolved tokens are
inspected; a throwing resolve is caught and logged and excludes the
token; instances exposing `onDestroy` are collected in order. -/
def collectFromEntries : List CEntry → List LTrace × List DInst
  | [] => ([], [])
  | en :: rest =>
    let r := collectFromEntries rest
    if en.resolved then
      if en.resolveThrows then (LTrace.loggedResolveError en.tokenId :: r.1, r.2)
      else if en.inst.hasOnDestroy then (r.1, en.inst :: r.2)
      else r
    else r

/-- Invoke `callOnDestroy` on every instance (all hooks start before any
is awaited).  `callOnDestroy` is an async function, so a hook that throws
synchronously still surfaces as a rejected Promise; the second component
reports whether `Promise.all` over the destroy Promises rejects. -/
def runDestroys : List DInst → List LTrace × Bool
  | [] => ([], false)
  | i :: rest =>
    let r := runDestroys rest
    if i.hasOnDestroy then
      (LTrace.destroyCalled i.iid :: r.1, (!(i.beh == .ok)) || r.2)
    else r

/-- `AppLifecycle.shutdown`: return at once when already shutting down;
otherwise set the guard, emit `beforeShutdown` and `shutdown`, collect
teardown instances from the container and merge the managed set (dedup
by identity), run all teardown hooks, then emit `afterShutdown`.  An
uncaught rejection at any awaited step rejects the whole call there
(process exit is suppressed under the test harness and not modelled). -/
def AppLifecycle.shutdown (st0 : LState) : LState × List LTrace × ShOutcome :=
  if st0.isShuttingDown then (st0, ([], .resolved))
  else
    let st := { st0 with isShuttingDown := true }
    let e1 := emitEventFn st .beforeShutdown
    if e1.2 then (st, (e1.1, .rejected))
    else
      let e2 := emitEventFn st .shutdown
      if e2.2 then (st, (e1.1 ++ e2.1, .rejected))
      else
        let col := collectFromEntries st.entries
        let allInstances :=
          col.2 ++ st.managed.filter (fun m => !(col.2.any (fun c => c.iid == m.iid)))
        let des := runDestroys allInstances
        if des.2 then (st, (e1.1 ++ e2.1 ++ col.1 ++ des.1, .rejected))
        else
          let e4 := emitEventFn st .afterShutdown
          if e4.2 then (st, (e1.1 ++ e2.1 ++ col.1 ++ des.1 ++ e4.1, .rejected))
          else (st, (e1.1 ++ e2.1 ++ col.1 ++ des.1 ++ e4.1, .resolved))

/-- Phase skeleton of a trace: the emitted phase markers and the teardown
hook invocations, in order. -/
def phaseEvent : LTrace → Option (LEvent ⊕ Nat)
  | .emitted e => some (.inl e)
  | .destroyCalled i => some (.inr i)
  | _ => none

/-- All phase markers and teardown invocations of a trace, in order. -/
def phaseEvents (tr : List LTrace) : List (LEvent ⊕ Nat) :=
  tr.filterMap phaseEvent

/-- Decidable well-behavedness of a lifecycle state: no listener returns
a rejecting Promise and every teardown hook that exists returns normally
(resolve failures during collection are allowed — they are caught). -/
def noFailuresB (st : LState) : Bool :=
  st.listeners.all (fun p => p.2.all (fun l => !(l.beh == .rejectAsync))) &&
  st.entries.all (fun en => !en.inst.hasOnDestroy || (en.inst.beh == .ok)) &&
  st.managed.all (fun i => !i.hasOnDestroy || (i.beh == .ok))

/-- Number of constructor invocations of a given class in a trace. -/
def countCtorOf (tr : List Event) (c : Nat) : Nat :=
  tr.countP (fun e => match e with | .ctorInvoked c2 _ => c2 == c | _ => false)

/-- Number of `onInit` invocations on a given value in a trace. -/
def countOnInitVal (tr : List Event) (v : Value) : Nat :=
  tr.countP (fun e => e == .onInitRun v)

/-- Resolve a token `n` consecutive times, collecting the results. -/
def resolveNTimes : Nat → Token → Sys → Res (List Value)
  | 0, _, s => .ok [] s
  | n + 1, t, s =>
    match resolveTok2 t s with
    | .err e s2 => .err e s2
    | .ok v s2 =>
      match resolveNTimes n t s2 with
      | .err e s3 => .err e s3
      | .ok vs s3 => .ok (v :: vs) s3

/-- Whether a provider descriptor matches one of the five recognized
shapes of the source's dispatch. -/
def recognizedShapeB : Provider → Bool
  | .ctor _ => true
  | .obj o =>
    o.useClass.isSome || o.useValue.isSome || o.useFactory.isSome || o.useExisting.isSome

/-- The state a fallible computation ends in (at the return or at the
throw point). -/
def resState {σ α : Type} : RRes σ α → σ
  | .ok _ s => s
  | .err _ s => s

/-- A world in which every class exposes `onInit` and factories are
irrelevant. -/
def W0 : World :=
  ⟨fun _ => true, fun _ _ => .lit 0 false, fun _ => false⟩

/-- Scenario C1: a module class `M` (id 10) with no imports, providers or
exports, declared via the `Module` decorator. -/
def sC1 : Sys := moduleDecorate [] [] [] 10 "M" emptySys

/-- Scenario C1: the state after the first completed `loadModule(M)`. -/
def sC1done : Sys := resState (loadModule W0 3 (.cls 10 "M") sC1)

/-- A transient class provider for class 2 under token `"P"`
(`singleton: false`). -/
def pvTrans : Provider := .obj ⟨.str "P", some 2, some false, none, none, none, none⟩

/-- Scenario C2 (transient): module `A` (class 1) provides and exports
the transient provider; module `B` (class 3) imports `A`. -/
def sC2 : Sys :=
  moduleDecorate [] [.stat "A"] [] 3 "B"
    (moduleDecorate [pvTrans] [] [pvTrans] 1 "A" emptySys)

/-- Scenario C2 (transient): the state after `loadModule(B)`. -/
def sC2done : Sys := resState (loadModule W0 5 (.cls 3 "B") sC2)

/-- A singleton class provider for class 2 under token `"P"`. -/
def pvSing : Provider := .obj ⟨.str "P", some 2, none, none, none, none, none⟩

/-- Scenario C2 (singleton): module `A` (class 1) provides and exports
the singleton provider; module `B` (class 3) imports `A`. -/
def sC2s : Sys :=
  moduleDecorate [] [.stat "A"] [] 3 "B"
    (moduleDecorate [pvSing] [] [pvSing] 1 "A" emptySys)

/-- Scenario C2 (singleton): the state after `loadModule(B)`. -/
def sC2sdone : Sys := resState (loadModule W0 5 (.cls 3 "B") sC2s)

/-- Scenario C3: a world whose factory 7 returns a value exposing
`onInit`, as a Promise. -/
def w3 : World :=
  ⟨fun _ => true, fun fid args => if fid = 7 then .lit (90 + args.length) true else .lit 0 false,
   fun fid => fid = 7⟩

/-- Scenario C3: a factory provider for token `"F"` with one dependency
`"D"`. -/
def fp : Provider := .obj ⟨.str "F", none, none, none, some 7, some [.str "D"], none⟩

/-- Scenario C3: a state in which the dependency token `"D"` is
registered as the value 5. -/
def s3 : Sys := ⟨[], [], [], ⟨[(.str "D", .value (.lit 5 false))], []⟩, 0, []⟩

/-- Scenario C3: the state after registering the factory provider. -/
def s3done : Sys := resState (registerProvider w3 fp s3)

/-- Scenario C6: a provider object with none of the recognized fields. -/
def badP : ProviderObj := ⟨.str "X", none, none, none, none, none, none⟩

/-- Scenario C7: class 2 is already registered and resolved in the
container, and module `A` exports it as a bare class export. -/
def sC7 : Sys :=
  ⟨[], [], [("A", [Provider.ctor 2])],
   ⟨[(.cls 2, .singletonClass 2)], [(.cls 2, .inst 0 2)]⟩, 1, []⟩

/-- Scenario C7: an object-form class provider export for token `"P"`. -/
def pva : Provider := .obj ⟨.str "P", some 2, none, none, none, none, none⟩

/-- Scenario C7: token `"P"` is already registered and resolved, and
module `A` exports the object-form provider. -/
def s7a : Sys :=
  ⟨[], [], [("A", [pva])],
   ⟨[(.str "P", .singletonClass 2)], [(.str "P", .inst 0 2)]⟩, 1, []⟩

/-- Scenario C7: the state after propagating `A`'s exports in `s7a`. -/
def s7adone : Sys := resState (registerExportedProviders W0 "A" s7a)

/-- Scenario C7: module `A` exports class 4 which is not yet
registered. -/
def s7c : Sys := ⟨[], [], [("A", [Provider.ctor 4])], ⟨[], []⟩, 0, []⟩

/-- Scenario C7: the state after propagating `A`'s exports in `s7c`. -/
def s7cdone : Sys := resState (registerExportedProviders W0 "A" s7c)

/-- Scenario C8: class 1 is already registered. -/
def s8 : Sys := ⟨[], [], [], ⟨[(.cls 1, .singletonClass 1)], []⟩, 0, []⟩

/-- Scenario C9: plugin `"ext"` is registered with a loader that
resolves to an import object with no exports. -/
def psX : PSys := ⟨[("ext", [])], [], emptySys⟩

/-- Scenario C9: plugin `"ext"` is registered with a loader resolving to
`(default: PluginModule)` where `PluginModule` is module class 4, named
`"PM"`, declared via the decorator. -/
def psE0 : PSys :=
  ⟨[("ext", [("default", some (ModuleRef.cls 4 "PM"))])], [],
   moduleDecorate [] [] [] 4 "PM" emptySys⟩

/-- Scenario C9: the state after the first `load("ext")`. -/
def psE1 : PSys := resState (pluginLoad W0 3 "ext" psE0)

/-- Scenario C10: a module named `"A"` (class 1) is declared; class 9 is
an undecorated class that happens to carry the same name `"A"`. -/
def s10 : Sys := moduleDecorate [] [] [] 1 "A" emptySys

/-- Scenario C10: the state after `loadModule` on the undecorated class
9 named `"A"`. -/
def s10done : Sys := resState (loadModule W0 3 (.cls 9 "A") s10)

/-- Scenario C4: a well-behaved lifecycle state with one listener per
shutdown event and one resolved container instance with a teardown
hook. -/
def stW : LState :=
  ⟨false,
   [(.beforeShutdown, [⟨1, .ok⟩]), (.shutdown, [⟨2, .ok⟩]), (.afterShutdown, [⟨3, .ok⟩])],
   [⟨5, true, false, ⟨20, true, .ok⟩⟩], []⟩

/-- Scenario C5: the first `beforeShutdown` listener returns a rejecting
Promise; a sibling listener follows; one teardown instance exists. -/
def st5 : LState :=
  ⟨false,
   [(.beforeShutdown, [⟨1, .rejectAsync⟩, ⟨2, .ok⟩]), (.shutdown, [⟨3, .ok⟩]),
    (.afterShutdown, [⟨4, .ok⟩])],
   [⟨7, true, false, ⟨10, true, .ok⟩⟩], []⟩

/-- Scenario C5: all listeners behave; the single teardown hook throws
when invoked. -/
def st5b : LState :=
  ⟨false,
   [(.beforeShutdown, [⟨1, .ok⟩]), (.shutdown, [⟨2, .ok⟩]), (.afterShutdown, [⟨3, .ok⟩])],
   [⟨7, true, false, ⟨10, true, .throwSync⟩⟩], []⟩

/-- Adding a name to the loaded set makes it a member. -/
theorem contains_addLoaded (n : String) (l : List String) :
    (addLoaded n l).contains n = true := by
  unfold addLoaded
  cases h : l.contains n with
  | true => simpa using h
  | false => simp

/-- A successful run of a declared module's initializer leaves the
module name in the loaded set. -/
theorem runModuleInit_ok_loaded (w : World) (f : Nat) (n : String) (s s1 : Sys)
    (d : InitDecl) (hl : lookupAssoc s.lazyModules n = some d)
    (h : runModuleInit w f n s = .ok () s1) :
    s1.loadedModules.contains n = true := by
  cases f with
  | zero => simp [runModuleInit] at h
  | succ f2 =>
    rw [runModuleInit] at h
    simp only [hl] at h
    by_cases hc : s.loadedModules.contains n = true
    · rw [if_pos hc] at h
      cases h
      exact hc
    · rw [if_neg hc] at h
      split at h
      · cases h
      · split at h
        · cases h
        · split at h
          · cases h
          · cases h
            exact contains_addLoaded n _

/-- C1: loading a module is idempotent — after a first `loadModule(M)`
call completed, a second call returns with the state (container,
registries, event trace) unchanged, so it traverses no imports, registers
no providers, constructs no second instance and runs no further hook; in
the concrete one-module scenario the module's `onInit` runs exactly once
across both calls. -/
theorem c1_loadModule_idempotent :
    (∀ (w : World) (f g i : Nat) (n : String) (s s1 : Sys),
        loadModule w f (.cls i n) s = .ok () s1 → 0 < g →
        loadModule w g (.cls i n) s1 = .ok () s1) ∧
    loadModule W0 3 (.cls 10 "M") sC1 = .ok () sC1done ∧
    loadModule W0 3 (.cls 10 "M") sC1done = .ok () sC1done ∧
    countOnInitVal sC1done.trace (.inst 0 10) = 1 := by
  refine ⟨?_, rfl, rfl, rfl⟩
  intro w f g i n s s1 h hg
  rw [loadModule] at h
  rw [loadModule]
  cases hl : lookupAssoc s.lazyModules n with
  | none =>
    simp only [hl] at h
    cases h
    simp only [hl]
  | some d =>
    simp only [hl] at h
    have hload := runModuleInit_ok_loaded w f n s s1 d hl h
    cases hl2 : lookupAssoc s1.lazyModules n with
    | none => rfl
    | some d2 =>
      obtain ⟨g2, rfl⟩ : ∃ g2, g = g2 + 1 := ⟨g - 1, by omega⟩
      rw [runModuleInit]
      simp only [hl2, hload, if_true]

/-- Witness for C1: the idempotence theorem applied to the concrete
one-module scenario. -/
theorem c1_witness : loadModule W0 1 (.cls 10 "M") sC1done = .ok () sC1done :=
  c1_loadModule_idempotent.1 W0 3 1 10 "M" sC1 sC1done rfl (by decide)

/-- Lookup hits the most recent registration of the same key. -/
theorem lookupAssoc_head {κ α : Type} [DecidableEq κ] (k : κ) (a : α) (l : List (κ × α)) :
    lookupAssoc ((k, a) :: l) k = some a := by
  rw [lookupAssoc, if_pos rfl]

/-- Resolving a token just re-registered as a value returns that value
with no state change — in particular, no construction. -/
theorem resolveTok2_value_head (s : Sys) (t : Token) (v : Value) :
    resolveTok2 t (registerC s t (.value v)) = .ok v (registerC s t (.value v)) := by
  rw [resolveTok2, resolveTok]
  dsimp only [registerC]
  rw [lookupAssoc_head]

/-- Resolving a token registered as a singleton class with a cached
instance returns the cached instance with no state change. -/
theorem resolveTok2_cached (s : Sys) (t : Token) (v : Value) (c : Nat)
    (h1 : lookupAssoc s.container.regs t = some (.singletonClass c))
    (h2 : lookupAssoc s.container.cache t = some v) :
    resolveTok2 t s = .ok v s := by
  rw [resolveTok2, resolveTok]
  simp only [h1, h2]

/-- Closed form of registering a not-yet-registered singleton class
provider under a string token: one container registration, one
construction (cached under the token), then the post-construct hook on
the new instance. -/
theorem registerProvider_class_str (w : World) (s : Sys) (o : ProviderObj) (c : Nat)
    (p : String) (hp : o.provide = .str p) (hc : o.useClass = some c)
    (hsing : ¬ o.singleton = some false) (hreg : isRegisteredS s o.provide = false)
    (hcache : lookupAssoc s.container.cache o.provide = none) :
    registerProvider w (.obj o) s =
      .ok () (callOnInitM w (.inst s.nextId c)
        ⟨s.lazyModules, s.loadedModules, s.moduleExports,
         ⟨(Token.str p, Reg.singletonClass c) :: s.container.regs,
          (Token.str p, Value.inst s.nextId c) :: s.container.cache⟩,
         s.nextId + 1,
         (s.trace ++ [.registeredTok (.str p)]) ++ [.ctorInvoked c s.nextId]⟩) := by
  rw [hp] at hreg hcache
  rw [registerProvider]
  simp only [hc, hp]
  rw [if_neg (by simp [hreg])]
  rw [if_neg hsing]
  dsimp only [registerC]
  rw [resolveTok2, resolveTok]
  dsimp only
  rw [lookupAssoc_head]
  simp only [hcache]

/-- C2 counterexample: module `A` exports a transient class provider
(`singleton: false`) for class 2 and module `B` imports `A`; after
`loadModule(B)` class 2 has been constructed twice — the export
propagation re-resolved the transient registration, a second
construction, contradicting the claim that no second construction of an
exported provider occurs. -/
theorem c2_counterexample :
    loadModule W0 5 (.cls 3 "B") sC2 = .ok () sC2done ∧
    countCtorOf sC2done.trace 2 = 2 :=
  ⟨rfl, rfl⟩

/-- C2 amended: (1) for every world, state and not-yet-registered
singleton class provider under a string token, registration constructs
exactly one instance of its class and no instance of any other class,
and afterwards the token resolves to that instance with no further state
change; (2) for every world, arbitrary state, module name exporting such
a provider whose token is already registered and already resolved
(resolving it is pure), export propagation re-registers exactly the
resolved instance as a value, performs no construction at all, and the
token still resolves to the very same instance afterwards — singleton
identity is preserved across the import boundary; (3) in the concrete
A-exports-P, B-imports-A scenario, after `loadModule(B)` class 2 was
constructed exactly once and resolving `"P"` yields that instance. -/
theorem c2_amended_export_singleton :
    (∀ (w : World) (s : Sys) (o : ProviderObj) (c : Nat) (p : String),
        o.provide = .str p → o.useClass = some c → ¬ o.singleton = some false →
        isRegisteredS s o.provide = false →
        lookupAssoc s.container.cache o.provide = none →
        ∃ s2, registerProvider w (.obj o) s = .ok () s2 ∧
          resolveTok2 (.str p) s2 = .ok (.inst s.nextId c) s2 ∧
          countCtorOf s2.trace c = countCtorOf s.trace c + 1 ∧
          (∀ k, k ≠ c → countCtorOf s2.trace k = countCtorOf s.trace k)) ∧
    (∀ (w : World) (s : Sys) (name : String) (o : ProviderObj) (v : Value),
        lookupAssoc s.moduleExports name = some [.obj o] →
        isRegisteredS s o.provide = true →
        resolveTok2 o.provide s = .ok v s →
        ∃ s3, registerExportedProviders w name s = .ok () s3 ∧
          s3 = registerC s o.provide (.value v) ∧
          resolveTok2 o.provide s3 = .ok v s3 ∧
          (∀ k, countCtorOf s3.trace k = countCtorOf s.trace k)) ∧
    loadModule W0 5 (.cls 3 "B") sC2s = .ok () sC2sdone ∧
    countCtorOf sC2sdone.trace 2 = 1 ∧
    resolveTok2 (.str "P") sC2sdone = .ok (.inst 0 2) sC2sdone ∧
    lookupAssoc sC2sdone.container.regs (.str "P") = some (.value (.inst 0 2)) := by
  refine ⟨?_, ?_, rfl, rfl, rfl, rfl⟩
  · intro w s o c p hp hc hsing hreg hcache
    refine ⟨_, registerProvider_class_str w s o c p hp hc hsing hreg hcache, ?_, ?_, ?_⟩
    · rw [callOnInitM]
      split
      · exact resolveTok2_cached _ _ _ c (lookupAssoc_head _ _ _) (lookupAssoc_head _ _ _)
      · exact resolveTok2_cached _ _ _ c (lookupAssoc_head _ _ _) (lookupAssoc_head _ _ _)
    · rw [callOnInitM]
      split
      · simp [countCtorOf, List.countP_append]
      · simp [countCtorOf, List.countP_append]
    · intro k hk
      rw [callOnInitM]
      split
      · simp [countCtorOf, List.countP_append, Ne.symm hk]
      · simp [countCtorOf, List.countP_append, Ne.symm hk]
  · intro w s name o v hexp hreg hres
    refine ⟨registerC s o.provide (.value v), ?_, rfl, resolveTok2_value_head s o.provide v, ?_⟩
    · rw [registerExportedProviders]
      simp only [hexp, List.length_cons, List.length_nil]
      rw [if_neg (by omega)]
      rw [registerExportedProviders.goExports]
      simp only [hreg, if_true, hres]
      rw [registerExportedProviders.goExports]
    · intro k
      simp [countCtorOf, registerC, List.countP_append]

/-- Witness for C2: the propagation component of the amended theorem
applied to a concrete state in which the exported token is registered as
a resolved singleton. -/
theorem c2_witness :
    ∃ s3, registerExportedProviders W0 "A" s7a = .ok () s3 ∧
      s3 = registerC s7a (Token.str "P") (.value (.inst 0 2)) ∧
      resolveTok2 (.str "P") s3 = .ok (.inst 0 2) s3 ∧
      (∀ k, countCtorOf s3.trace k = countCtorOf s7a.trace k) :=
  c2_amended_export_singleton.2.1 W0 s7a "A"
    ⟨.str "P", some 2, none, none, none, none, none⟩ (.inst 0 2) rfl rfl rfl

/-- C3: registering a factory provider resolves its deps, invokes the
factory exactly once with those values positionally, registers the
awaited result as a value, runs the result's `onInit` hook, and
afterwards resolving the token any number of times returns that same
value with no state change — hence no factory re-invocation. -/
theorem c3_factory_preresolved_once :
    registerProvider w3 fp s3 = .ok () s3done ∧
    s3done.trace = [.factoryInvoked 7 [.lit 5 false], .registeredTok (.str "F"),
      .onInitRun (.lit 91 true)] ∧
    lookupAssoc s3done.container.regs (.str "F") = some (.value (.lit 91 true)) ∧
    ∀ n : Nat, resolveNTimes n (.str "F") s3done =
      .ok (List.replicate n (.lit 91 true)) s3done := by
  refine ⟨rfl, rfl, rfl, ?_⟩
  intro n
  induction n with
  | zero => rfl
  | succ k ih =>
    have hres : resolveTok2 (.str "F") s3done = .ok (.lit 91 true) s3done := rfl
    rw [resolveNTimes]
    simp only [hres, ih, List.replicate_succ]

/-- C6 counterexample: the unsupported-shape failure is a plain `Error`
(no `ProviderRegistrationError` class exists in the code), though its
message does name the serialized descriptor. -/
theorem c6_counterexample :
    registerProvider W0 (.obj badP) emptySys =
      .err ⟨"Error", "Unsupported provider type: " ++ serializeProvider (.obj badP)⟩
        emptySys ∧
    "Error" ≠ "ProviderRegistrationError" :=
  ⟨rfl, by decide⟩

/-- C6 amended: a descriptor matching none of the five recognized shapes
makes `registerProvider` throw a plain `Error` whose message names the
serialized descriptor, with the state (hence the container) unchanged at
the throw point. -/
theorem c6_amended_unsupported_error (w : World) (o : ProviderObj) (s : Sys)
    (h1 : o.useClass = none) (h2 : o.useValue = none)
    (h3 : o.useFactory = none) (h4 : o.useExisting = none) :
    registerProvider w (.obj o) s =
      .err ⟨"Error", "Unsupported provider type: " ++ serializeProvider (.obj o)⟩ s := by
  rw [registerProvider]
  simp only [h1, h2, h3, h4]

/-- Witness for C6: the amended theorem applied to the concrete
unrecognized descriptor. -/
theorem c6_witness :
    registerProvider W0 (.obj badP) s8 =
      .err ⟨"Error", "Unsupported provider type: " ++ serializeProvider (.obj badP)⟩ s8 :=
  c6_amended_unsupported_error W0 badP s8 rfl rfl rfl rfl

/-- C7 counterexample: a bare class export whose token is already
registered is left entirely untouched by export propagation — the
registration is still the class registration, not a value registration
of the resolved instance as the claim states. -/
theorem c7_counterexample :
    registerExportedProviders W0 "A" sC7 = .ok () sC7 ∧
    lookupAssoc sC7.container.regs (.cls 2) = some (.singletonClass 2) :=
  ⟨rfl, rfl⟩

/-- C7 amended: an object-form export with an already-registered token
is re-registered as the resolved instance (a value registration); a bare
class export with a registered token is skipped unchanged; an export
with an unregistered token is delegated to the Provider Registrar (which
registers and constructs it). -/
theorem c7_amended_export_reregistration :
    registerExportedProviders W0 "A" s7a = .ok () s7adone ∧
    lookupAssoc s7adone.container.regs (.str "P") = some (.value (.inst 0 2)) ∧
    registerExportedProviders W0 "A" sC7 = .ok () sC7 ∧
    registerExportedProviders W0 "A" s7c = .ok () s7cdone ∧
    lookupAssoc s7cdone.container.regs (.cls 4) = some (.singletonClass 4) ∧
    countCtorOf s7cdone.trace 4 = 1 :=
  ⟨rfl, rfl, rfl, rfl, rfl, rfl⟩

/-- C8: for every recognized descriptor whose token is already
registered, `registerProvider` is a silent no-op returning the state
unchanged — no registration, no construction, no factory call, no
hook. -/
theorem c8_registered_noop (w : World) (p : Provider) (s : Sys)
    (hrec : recognizedShapeB p = true)
    (hreg : isRegisteredS s (providerToken p) = true) :
    registerProvider w p s = .ok () s := by
  cases p with
  | ctor c =>
    simp only [providerToken] at hreg
    rw [registerProvider]
    simp only [hreg, if_true]
  | obj o =>
    simp only [providerToken] at hreg
    rw [registerProvider]
    cases hc : o.useClass with
    | some c => simp only [hc, hreg, if_true]
    | none =>
      cases hv : o.useValue with
      | some v => simp only [hc, hv, hreg, if_true]
      | none =>
        cases hf : o.useFactory with
        | some fid => simp only [hc, hv, hf, hreg, if_true]
        | none =>
          cases he : o.useExisting with
          | some t => simp only [hc, hv, hf, he, hreg, if_true]
          | none => simp [recognizedShapeB, hc, hv, hf, he] at hrec

/-- Witness for C8: the no-op theorem applied to a registered class
token. -/
theorem c8_witness : registerProvider W0 (.ctor 1) s8 = .ok () s8 :=
  c8_registered_noop W0 (.ctor 1) s8 rfl (by decide)

/-- C9 counterexample: a plugin that is registered and not yet loaded
can still make `load` throw — here its loader resolves to an import
object with no defined export — so the error condition is not exactly
"unregistered and not loaded". -/
theorem c9_counterexample :
    pluginLoad W0 3 "ext" psX =
      .err ⟨"Error", "Plugin \x27ext\x27 did not export any modules"⟩ psX ∧
    (lookupAssoc psX.registry "ext").isSome = true ∧
    psX.loaded.contains "ext" = false :=
  ⟨rfl, rfl, rfl⟩

/-- C9 amended: `load` is a no-op for an already-loaded name, throws the
not-registered error for an unknown name, and otherwise loads the
default (or first defined) exported module and marks the plugin loaded;
loading twice leaves the plugin loaded with the module's `onInit` hook
run exactly once.  Errors can also arise from a loader with no defined
export (or from the module load itself). -/
theorem c9_amended_plugin_load :
    (∀ (w : World) (f : Nat) (n : String) (ps : PSys),
        ps.loaded.contains n = true → pluginLoad w f n ps = .ok () ps) ∧
    (∀ (w : World) (f : Nat) (n : String) (ps : PSys),
        ps.loaded.contains n = false → lookupAssoc ps.registry n = none →
        pluginLoad w f n ps =
          .err ⟨"Error", "Plugin \x27" ++ n ++ "\x27 is not registered"⟩ ps) ∧
    pluginLoad W0 3 "ext" psE0 = .ok () psE1 ∧
    pluginLoad W0 3 "ext" psE1 = .ok () psE1 ∧
    pluginIsLoaded "ext" psE1 = true ∧
    countOnInitVal psE1.sys.trace (.inst 0 4) = 1 := by
  refine ⟨?_, ?_, rfl, rfl, rfl, rfl⟩
  · intro w f n ps h
    rw [pluginLoad]
    simp only [h, if_true]
  · intro w f n ps h1 h2
    rw [pluginLoad]
    simp only [h1, h2, Bool.false_eq_true, if_false]

/-- Witness for C9: the loaded-plugin no-op branch of the amended
theorem at the concrete loaded state. -/
theorem c9_witness : pluginLoad W0 1 "ext" psE1 = .ok () psE1 :=
  c9_amended_plugin_load.1 W0 1 "ext" psE1 (by decide)

/-- C10 counterexample: `loadModule` looks initializers up by class
name; an undecorated class 9 named `"A"` collides with the declared
module `"A"` (class 1), so loading it runs that module's initializer,
registers class 1, and adds `"A"` — the undecorated class's own name —
to the loaded-modules set. -/
theorem c10_counterexample :
    loadModule W0 3 (.cls 9 "A") s10 = .ok () s10done ∧
    (getLoadedModules s10done).contains "A" = true ∧
    lookupAssoc s10done.container.regs (.cls 1) = some (.singletonClass 1) :=
  ⟨rfl, rfl, rfl⟩

/-- C10 amended: for a class whose name has no stored module
initializer, `loadModule` resolves as a silent no-op with the state —
container, loaded-modules set, trace — unchanged. -/
theorem c10_amended_unknown_module_noop (w : World) (f i : Nat) (n : String) (s : Sys)
    (h : lookupAssoc s.lazyModules n = none) :
    loadModule w f (.cls i n) s = .ok () s := by
  rw [loadModule]
  simp only [h]

/-- Witness for C10: the no-op theorem at a name distinct from every
declared module. -/
theorem c10_witness : loadModule W0 3 (.cls 9 "Z") s10 = .ok () s10 :=
  c10_amended_unknown_module_noop W0 3 9 "Z" s10 rfl

/-- C5: a lifecycle failure is not isolated when it is asynchronous — a
`beforeShutdown` listener returning a rejecting Promise makes the whole
`shutdown()` call reject after invoking its sibling listener, with no
`shutdown`/`afterShutdown` emission and no teardown hook run; likewise a
teardown hook that throws (its rejection escapes the dead try/catch, as
`callOnDestroy` is async) makes `shutdown()` reject with `afterShutdown`
never emitted. -/
theorem c5_failure_propagates :
    AppLifecycle.shutdown st5 =
      ({ st5 with isShuttingDown := true },
       ([.emitted .beforeShutdown, .listenerCalled 1, .listenerCalled 2], .rejected)) ∧
    AppLifecycle.shutdown st5b =
      ({ st5b with isShuttingDown := true },
       ([.emitted .beforeShutdown, .listenerCalled 1, .emitted .shutdown,
         .listenerCalled 2, .destroyCalled 10], .rejected)) :=
  ⟨rfl, rfl⟩

/-- The rejected flag of a listener batch is exactly whether some
listener returns a rejecting Promise. -/
theorem runListeners_snd (ls : List LListener) :
    (runListeners ls).2 = ls.any (fun l => l.beh == .rejectAsync) := by
  induction ls with
  | nil => rfl
  | cons l rest ih => simp [runListeners, ih]

/-- A listener batch contributes no phase markers or teardown events. -/
theorem phaseEvents_runListeners (ls : List LListener) :
    phaseEvents (runListeners ls).1 = [] := by
  induction ls with
  | nil => rfl
  | cons l rest ih =>
    simp only [phaseEvents] at ih ⊢
    cases hb : l.beh <;>
      simp [runListeners, phaseEvent, hb, List.filterMap_append, List.filterMap_cons, ih]

/-- Collection of teardown instances contributes no phase markers or
teardown events (only caught-and-logged resolve errors). -/
theorem phaseEvents_collect (es : List CEntry) :
    phaseEvents (collectFromEntries es).1 = [] := by
  induction es with
  | nil => rfl
  | cons en rest ih =>
    simp only [phaseEvents] at ih ⊢
    rw [collectFromEntries]
    cases hr : en.resolved with
    | false => simpa using ih
    | true =>
      cases ht : en.resolveThrows with
      | true => simpa [phaseEvent] using ih
      | false =>
        cases hd : en.inst.hasOnDestroy <;> simpa using ih

/-- Every instance collected from the container entries is the instance
of one of the entries. -/
theorem collect_mem (es : List CEntry) (i : DInst)
    (h : i ∈ (collectFromEntries es).2) : ∃ en ∈ es, en.inst = i := by
  induction es with
  | nil => simp [collectFromEntries] at h
  | cons en rest ih =>
    rw [collectFromEntries] at h
    have step : ∀ hm : i ∈ (collectFromEntries rest).2, ∃ en2 ∈ en :: rest, en2.inst = i := by
      intro hm
      obtain ⟨en2, hmem, heq⟩ := ih hm
      exact ⟨en2, List.mem_cons_of_mem en hmem, heq⟩
    cases hr : en.resolved with
    | false => rw [hr] at h; exact step (by simpa using h)
    | true =>
      rw [hr] at h
      cases ht : en.resolveThrows with
      | true => rw [ht] at h; exact step (by simpa using h)
      | false =>
        rw [ht] at h
        cases hd : en.inst.hasOnDestroy with
        | false => rw [hd] at h; exact step (by simpa using h)
        | true =>
          rw [hd] at h
          simp only [if_true] at h
          rcases List.mem_cons.mp (by simpa using h) with heq | hm
          · exact ⟨en, List.mem_cons_self en rest, heq.symm⟩
          · exact step hm

/-- Closed form of the teardown batch: the trace is one `destroyCalled`
per hook-bearing instance in order, and the batch rejects exactly when
some invoked hook does not return normally. -/
theorem runDestroys_eq (l : List DInst) :
    runDestroys l =
      ((l.filter (fun i => i.hasOnDestroy)).map (fun i => LTrace.destroyCalled i.iid),
       l.any (fun i => i.hasOnDestroy && !(i.beh == .ok))) := by
  induction l with
  | nil => rfl
  | cons i rest ih =>
    rw [runDestroys, ih]
    cases hd : i.hasOnDestroy <;> simp [List.filter_cons, hd]

/-- Phase events of a pure teardown trace are the corresponding teardown
markers. -/
theorem phaseEvents_map_destroy (m : List DInst) :
    phaseEvents (m.map (fun i => LTrace.destroyCalled i.iid)) =
      (m.map (fun i => i.iid)).map Sum.inr := by
  induction m with
  | nil => rfl
  | cons i rest ih =>
    simp only [phaseEvents] at ih ⊢
    simp [List.filterMap_cons, phaseEvent, ih]

/-- A list on which a Boolean predicate is everywhere false has no
element satisfying it. -/
theorem any_false_of_all_not {α : Type} (l : List α) (p : α → Bool)
    (h : l.all (fun x => !(p x)) = true) : l.any p = false := by
  induction l with
  | nil => rfl
  | cons a rest ih =>
    simp only [List.all_cons, Bool.and_eq_true, Bool.not_eq_true'] at h
    simp [List.any_cons, h.1, ih (by simpa using h.2)]

/-- A successful association-list lookup witnesses membership. -/
theorem lookupAssoc_mem {κ α : Type} [DecidableEq κ] (l : List (κ × α)) (k : κ) (v : α)
    (h : lookupAssoc l k = some v) : (k, v) ∈ l := by
  induction l with
  | nil => simp [lookupAssoc] at h
  | cons p rest ih =>
    obtain ⟨k1, a1⟩ := p
    rw [lookupAssoc] at h
    by_cases hk : k1 = k
    · rw [if_pos hk] at h
      cases h
      subst hk
      exact List.mem_cons_self _ _
    · rw [if_neg hk] at h
      exact List.mem_cons_of_mem _ (ih h)

/-- In a lifecycle state none of whose listeners rejects, every event's
listener batch is rejection-free. -/
theorem listenersOf_all_not_reject (st : LState)
    (h : st.listeners.all (fun p => p.2.all (fun l => !(l.beh == LBeh.rejectAsync))) = true)
    (e : LEvent) :
    (listenersOf st e).all (fun l => !(l.beh == LBeh.rejectAsync)) = true := by
  unfold listenersOf
  cases hk : lookupAssoc st.listeners e with
  | none => rfl
  | some ls =>
    have hm := lookupAssoc_mem _ _ _ hk
    rw [List.all_eq_true] at h
    exact h _ hm

/-- Emission of an event over rejection-free listeners does not
reject. -/
theorem emitEventFn_snd_false (st : LState) (e : LEvent)
    (h : st.listeners.all (fun p => p.2.all (fun l => !(l.beh == LBeh.rejectAsync))) = true) :
    (emitEventFn st e).2 = false := by
  show (runListeners (listenersOf st e)).2 = false
  rw [runListeners_snd]
  exact any_false_of_all_not _ _ (listenersOf_all_not_reject st h e)

/-- The phase skeleton of one event emission is exactly that event's
marker. -/
theorem phaseEvents_emitEventFn (st : LState) (e : LEvent) :
    phaseEvents (emitEventFn st e).1 = [Sum.inl e] := by
  show phaseEvents (LTrace.emitted e :: (runListeners (listenersOf st e)).1) = [Sum.inl e]
  have ht := phaseEvents_runListeners (listenersOf st e)
  simp only [phaseEvents] at ht ⊢
  simp [List.filterMap_cons, phaseEvent, ht]

/-- A teardown batch whose hooks all return normally does not reject. -/
theorem runDestroys_snd_false (l : List DInst)
    (h : ∀ i ∈ l, i.hasOnDestroy = true → i.beh = LBeh.ok) :
    (runDestroys l).2 = false := by
  induction l with
  | nil => rfl
  | cons i rest ih =>
    have hrest := ih (fun j hj => h j (List.mem_cons_of_mem i hj))
    rw [runDestroys]
    cases hd : i.hasOnDestroy with
    | false => simpa using hrest
    | true =>
      have hok := h i (List.mem_cons_self i rest) hd
      simp [hok, hrest]

/-- Phase skeletons distribute over trace concatenation. -/
theorem phaseEvents_append (a b : List LTrace) :
    phaseEvents (a ++ b) = phaseEvents a ++ phaseEvents b := by
  simp [phaseEvents]

/-- C4: a first `shutdown()` on a well-behaved state resolves, leaves
the guard set, and its phase skeleton is exactly `beforeShutdown`, then
`shutdown`, then all teardown hook invocations, then `afterShutdown`;
and any `shutdown()` call finding the guard set returns immediately with
no events and no teardown hooks. -/
theorem c4_shutdown_order :
    (∀ st : LState, noFailuresB st = true → st.isShuttingDown = false →
        (AppLifecycle.shutdown st).2.2 = .resolved ∧
        (AppLifecycle.shutdown st).1.isShuttingDown = true ∧
        ∃ ds : List Nat, phaseEvents (AppLifecycle.shutdown st).2.1 =
          [Sum.inl .beforeShutdown, Sum.inl .shutdown] ++ ds.map Sum.inr ++
            [Sum.inl .afterShutdown]) ∧
    (∀ st : LState, st.isShuttingDown = true →
        AppLifecycle.shutdown st = (st, ([], .resolved))) := by
  constructor
  · intro st hnf hsd
    rw [noFailuresB, Bool.and_eq_true, Bool.and_eq_true] at hnf
    obtain ⟨⟨hl, he⟩, hm⟩ := hnf
    have h1 : (emitEventFn { st with isShuttingDown := true } LEvent.beforeShutdown).2 = false :=
      emitEventFn_snd_false _ _ hl
    have h2 : (emitEventFn { st with isShuttingDown := true } LEvent.shutdown).2 = false :=
      emitEventFn_snd_false _ _ hl
    have h4 : (emitEventFn { st with isShuttingDown := true } LEvent.afterShutdown).2 = false :=
      emitEventFn_snd_false _ _ hl
    have hall : ∀ i ∈ (collectFromEntries st.entries).2 ++
        st.managed.filter
          (fun m => !((collectFromEntries st.entries).2.any (fun c => c.iid == m.iid))),
        i.hasOnDestroy = true → i.beh = LBeh.ok := by
      intro i hi hd
      rcases List.mem_append.mp hi with hcol | hman
      · obtain ⟨en, hen, heq⟩ := collect_mem _ _ hcol
        rw [List.all_eq_true] at he
        have hx := he en hen
        rw [heq] at hx
        simpa [hd] using hx
      · have hman2 := (List.mem_filter.mp hman).1
        rw [List.all_eq_true] at hm
        have hx := hm i hman2
        simpa [hd] using hx
    have hdes : (runDestroys ((collectFromEntries st.entries).2 ++
        st.managed.filter
          (fun m => !((collectFromEntries st.entries).2.any (fun c => c.iid == m.iid))))).2
          = false :=
      runDestroys_snd_false _ hall
    refine ⟨?_, ?_, ?_⟩
    · rw [AppLifecycle.shutdown, if_neg (by simp [hsd])]
      dsimp only
      rw [h1, h2, hdes, h4]
      simp
    · rw [AppLifecycle.shutdown, if_neg (by simp [hsd])]
      dsimp only
      rw [h1, h2, hdes, h4]
      simp
    · rw [AppLifecycle.shutdown, if_neg (by simp [hsd])]
      dsimp only
      rw [h1, h2, hdes, h4]
      simp only [Bool.false_eq_true, if_false]
      refine ⟨(((collectFromEntries st.entries).2 ++
        st.managed.filter
          (fun m => !((collectFromEntries st.entries).2.any (fun c => c.iid == m.iid)))).filter
            (fun i => i.hasOnDestroy)).map (fun i => i.iid), ?_⟩
      rw [runDestroys_eq]
      dsimp only
      rw [phaseEvents_append, phaseEvents_append, phaseEvents_append, phaseEvents_append,
        phaseEvents_emitEventFn, phaseEvents_emitEventFn, phaseEvents_collect,
        phaseEvents_map_destroy, phaseEvents_emitEventFn]
      simp
  · intro st h
    rw [AppLifecycle.shutdown, if_pos (by simp [h])]

/-- Witness for C4: the ordering theorem applied to the concrete
well-behaved state with one listener per event and one teardown
instance. -/
theorem c4_witness :
    (AppLifecycle.shutdown stW).2.2 = .resolved ∧
    (AppLifecycle.shutdown stW).1.isShuttingDown = true ∧
    ∃ ds : List Nat, phaseEvents (AppLifecycle.shutdown stW).2.1 =
      [Sum.inl .beforeShutdown, Sum.inl .shutdown] ++ ds.map Sum.inr ++
        [Sum.inl .afterShutdown] :=
  c4_shutdown_order.1 stW (by decide) rfl
